import Mathlib

/-!
Shallow embedding of src/main.py (a Telegram relay bot: users write to the bot,
messages are forwarded to admins, admin replies are relayed back).

The module-level mutable state of the script is the pair
(forward_map, replied_messages); every webhook invocation reads and possibly
updates it.  Outbound Telegram API calls are modelled as a trace of emitted
calls plus an oracle supplying the platform response consumed by the handler.
-/

/-- The in-memory store of src/main.py lines 34-35:
forward_map (a dict from forwarded_msg_id to (orig_chat_id, orig_msg_id),
modelled as an association list in insertion order with unique keys) and
replied_messages (a set of message ids, modelled as a list; membership is the
observable). -/
structure St where
  forward_map : List (Int × Int × Int)
  replied_messages : List Int
deriving Repr, DecidableEq

/-- Directory lookup: the dict access forward_map[reply_to_id] guarded by
reply_to_id in forward_map (src/main.py lines 216-217). -/
def resolve : List (Int × Int × Int) → Int → Option (Int × Int)
  | [], _ => none
  | e :: rest, fid => if e.1 = fid then some e.2 else resolve rest fid

/-- Directory insertion: the dict assignment
forward_map[fwd_id] = (chat_id, msg_id) (src/main.py lines 296 and 319).
A Python dict assignment replaces the value of an existing key in place and
appends a new key at the end; there is no duplicate detection. -/
def record_link : List (Int × Int × Int) → Int → Int × Int → List (Int × Int × Int)
  | [], fid, p => [(fid, p.1, p.2)]
  | e :: rest, fid, p =>
      if e.1 = fid then (fid, p.1, p.2) :: rest else e :: record_link rest fid p

/-- Python set.add on the replied_messages set: a no-op when the element is
already a member. -/
def setAdd (s : List Int) (x : Int) : List Int := if x ∈ s then s else x :: s

/-- replied_messages.add(orig_msg_id) (src/main.py line 242), lifted to the
store. -/
def mark_replied (st : St) (origin_message_id : Int) : St :=
  { st with replied_messages := setAdd st.replied_messages origin_message_id }

/-- Membership test msg_id in replied_messages (src/main.py line 282). -/
def was_replied (st : St) (origin_message_id : Int) : Bool :=
  st.replied_messages.contains origin_message_id

/-!
Persistence (save_data_to_gist, src/main.py lines 87-105, and
load_data_from_gist, lines 54-68).  save serialises forward_map as a JSON
object whose keys are str(k) and whose values are list(v); load rebuilds it
with int(k) and tuple(v).  A JSON object key is the decimal string of the
integer; we model that string by its sign together with its base-10 digit
list, so str/int round-tripping is Nat.ofDigits_digits.  replied_messages is
serialised as list(replied_messages) and reloaded as set(...).
-/

/-- Python str(k) for an integer dict key: sign flag plus base-10 digits. -/
def intToKey (k : Int) : Bool × List Nat := (decide (k < 0), Nat.digits 10 k.natAbs)

/-- Python int(s) on a decimal key produced by str. -/
def keyToInt : Bool × List Nat → Int
  | (true, ds) => -(Nat.ofDigits 10 ds : Nat)
  | (false, ds) => (Nat.ofDigits 10 ds : Nat)

/-- Python tuple(v) on a serialised value list, followed by the 2-tuple
unpacking the rest of the script performs; values outside the saved shape are
totalised to 0. -/
def tuple2 : List Int → Int × Int
  | a :: b :: _ => (a, b)
  | [a] => (a, 0)
  | [] => (0, 0)

/-- forward_map_data = \x7bstr(k): list(v) for k, v in forward_map.items()\x7d
(src/main.py line 88). -/
def saveForwardMap (m : List (Int × Int × Int)) : List ((Bool × List Nat) × List Int) :=
  m.map (fun e => (intToKey e.1, [e.2.1, e.2.2]))

/-- forward_map = \x7bint(k): tuple(v) for k, v in data.items()\x7d
(src/main.py line 61). -/
def loadForwardMap (d : List ((Bool × List Nat) × List Int)) : List (Int × Int × Int) :=
  d.map (fun e => (keyToInt e.1, tuple2 e.2))

/-- replied_messages_data = list(replied_messages) (src/main.py line 89). -/
def saveReplied (s : List Int) : List Int := s

/-- replied_messages = set(json.loads(content)) (src/main.py line 67): a set
built from the stored list; duplicates collapse, membership is preserved. -/
def loadReplied (l : List Int) : List Int := l.dedup

theorem keyToInt_intToKey (k : Int) : keyToInt (intToKey k) = k := by
  by_cases h : k < 0
  · have hk : intToKey k = (true, Nat.digits 10 k.natAbs) := by
      simp [intToKey, h]
    rw [hk]
    show -(Nat.ofDigits 10 (Nat.digits 10 k.natAbs) : Nat) = k
    rw [Nat.ofDigits_digits]
    omega
  · have hk : intToKey k = (false, Nat.digits 10 k.natAbs) := by
      simp [intToKey, h]
    rw [hk]
    show ((Nat.ofDigits 10 (Nat.digits 10 k.natAbs) : Nat) : Int) = k
    rw [Nat.ofDigits_digits]
    omega

theorem resolve_record_link_self (m : List (Int × Int × Int)) (fid : Int) (p : Int × Int) :
    resolve (record_link m fid p) fid = some p := by
  induction m with
  | nil => simp [record_link, resolve]
  | cons e rest ih =>
    by_cases h : e.1 = fid
    · simp [record_link, resolve, h]
    · simp [record_link, resolve, h, ih]

theorem resolve_record_link_ne (m : List (Int × Int × Int)) (k : Int) (q : Int × Int)
    (fid : Int) (hne : k ≠ fid) :
    resolve (record_link m k q) fid = resolve m fid := by
  induction m with
  | nil => simp [record_link, resolve, hne]
  | cons e rest ih =>
    by_cases he : e.1 = k
    · simp [record_link, resolve, he, hne]
    · by_cases hf : e.1 = fid
      · simp [record_link, resolve, he, hf, Ne.symm hne]
      · simp [record_link, resolve, he, hf, ih]

theorem resolve_foldl_ne (ops : List (Int × Int × Int)) (acc : List (Int × Int × Int))
    (fid : Int) (h : ∀ o ∈ ops, o.1 ≠ fid) :
    resolve (ops.foldl (fun a o => record_link a o.1 o.2) acc) fid = resolve acc fid := by
  induction ops generalizing acc with
  | nil => rfl
  | cons o rest ih =>
    rw [List.foldl_cons, ih _ (fun x hx => h x (List.mem_cons_of_mem _ hx))]
    exact resolve_record_link_ne acc o.1 o.2 fid (h o (List.mem_cons_self _ _))

theorem loadForwardMap_saveForwardMap (m : List (Int × Int × Int)) :
    loadForwardMap (saveForwardMap m) = m := by
  induction m with
  | nil => rfl
  | cons e rest ih =>
    simp [loadForwardMap, saveForwardMap, tuple2, keyToInt_intToKey] at ih ⊢
    exact ih

/-!
The dispatch engine: the webhook Flask handler (src/main.py lines 192-336).
Only the POST branch carrying an update is modelled; the update either has a
"message" key (some msg) or not (none).  Fields are those the handler reads;
a field the JSON may lack and that the code reads with .get is an Option.
-/

/-- An inbound Telegram message as consumed by the handler.  from_id models
msg.get("from", \x7b\x7d).get("id"); reply_to_message_id is present exactly
when "reply_to_message" is in msg; entities is the list of entity type tags;
the six media fields each hold the extracted file_id when the message carries
that media kind (for photo, the file_id of the last, highest-quality size). -/
structure Msg where
  chat_id : Int
  chat_type : String
  from_id : Option Int
  from_first_name : Option String
  from_last_name : Option String
  from_username : Option String
  message_id : Int
  reply_to_message_id : Option Int
  entities : List String
  text : Option String
  caption : Option String
  photo : Option String
  video : Option String
  document : Option String
  audio : Option String
  voice : Option String
  sticker : Option String
deriving Repr, DecidableEq

/-- An outbound Telegram Bot API call issued by the handler.  sendMedia
carries the method chosen by forward_media_message (sendPhoto, sendVideo,
...). -/
inductive ApiCall where
  | forwardMessage (chat_id : Int) (from_chat_id : Int) (message_id : Int)
  | sendMessage (chat_id : Int) (text : String) (reply_to_message_id : Option Int)
  | sendMedia (method : String) (chat_id : Int) (file_id : String)
      (caption : Option String) (reply_to_message_id : Option Int)
deriving Repr, DecidableEq

/-- The parts of a Telegram API JSON response the handler inspects: the ok
flag (response.get("ok")) and result.message_id when present. -/
structure TgResponse where
  ok : Bool
  result_message_id : Option Int
deriving Repr, DecidableEq

/-- The injected configuration relevant to the relay: ADMIN_IDS
(src/main.py lines 21-22). -/
structure Config where
  admin_ids : List Int
deriving Repr, DecidableEq

/-- What the handler invocation produces at the transport level: the
acknowledgment dict with ok set to true, or an exception escaping the handler
(the undefined name ADMIN_ID at src/main.py line 288). -/
inductive Outcome where
  | ack
  | nameError (name : String)
deriving Repr, DecidableEq

/-- get_file_id (src/main.py lines 135-153): first media kind present wins,
in the dict order photo, video, document, audio, voice, sticker; returns the
extracted file_id and the kind tag. -/
def get_file_id (m : Msg) : Option (String × String) :=
  match m.photo with
  | some f => some (f, "photo")
  | none =>
  match m.video with
  | some f => some (f, "video")
  | none =>
  match m.document with
  | some f => some (f, "document")
  | none =>
  match m.audio with
  | some f => some (f, "audio")
  | none =>
  match m.voice with
  | some f => some (f, "voice")
  | none =>
  match m.sticker with
  | some f => some (f, "sticker")
  | none => none

/-- method_map (src/main.py lines 160-167). -/
def method_map (media_type : String) : Option String :=
  if media_type = "photo" then some "sendPhoto"
  else if media_type = "video" then some "sendVideo"
  else if media_type = "document" then some "sendDocument"
  else if media_type = "audio" then some "sendAudio"
  else if media_type = "voice" then some "sendVoice"
  else if media_type = "sticker" then some "sendSticker"
  else none

/-- forward_media_message (src/main.py lines 156-184): none models the early
return of an empty dict for an unsupported media type (no API call issued).
caption and reply_to_message_id are added to the params only when truthy, so
an empty caption and a zero message id are dropped. -/
def forward_media_message (chat_id : Int) (file_id : String) (media_type : String)
    (caption : Option String) (reply_to_message_id : Option Int) : Option ApiCall :=
  match method_map media_type with
  | none => none
  | some method =>
    some (.sendMedia method chat_id file_id
      (match caption with
       | some c => if c = "" then none else some c
       | none => none)
      (match reply_to_message_id with
       | some r => if r = 0 then none else some r
       | none => none))

/-- The relay attempt an admin reply triggers once the origin is resolved
(src/main.py lines 221-238): media re-send when the reply carries media,
otherwise sendMessage with the reply text (empty string when absent),
threaded to the original message. -/
def relay_action (orig_chat_id orig_msg_id : Int) (msg : Msg) : Option ApiCall :=
  match get_file_id msg with
  | some fm => forward_media_message orig_chat_id fm.1 fm.2 msg.caption (some orig_msg_id)
  | none => some (.sendMessage orig_chat_id (msg.text.getD "") (some orig_msg_id))

/-- The admin branch of the handler (src/main.py lines 207-268): uid is the
sender id already known to be in ADMIN_IDS.  Returns the outcome, the new
store and the outbound calls in order.  The oracle gives the platform
response to the n-th call whose response the code inspects; only the relay
call response is inspected on this path. -/
def handle_admin (cfg : Config) (oracle : Nat → TgResponse) (st : St) (msg : Msg)
    (uid : Int) : Outcome × St × List ApiCall :=
  match msg.reply_to_message_id with
  | none => (.ack, st, [])
  | some reply_to_id =>
    match resolve st.forward_map reply_to_id with
    | none => (.ack, st, [])
    | some (orig_chat_id, orig_msg_id) =>
      let relay := relay_action orig_chat_id orig_msg_id msg
      let response : TgResponse :=
        match relay with
        | some _ => oracle 0
        | none => ⟨false, none⟩
      if response.ok then
        let admin_name := msg.from_first_name.getD "Admin"
        (.ack, mark_replied st orig_msg_id,
          relay.toList ++ cfg.admin_ids.map (fun admin_id =>
            ApiCall.sendMessage admin_id ("✅ Reply sent successfully by " ++ admin_name)
              (if admin_id = uid then some msg.message_id else none)))
      else
        (.ack, st,
          relay.toList ++
            [ApiCall.sendMessage uid "❌ Failed to send reply" (some msg.message_id)])

/-- The non-admin branch of the handler (src/main.py lines 270-336).  When
the chat is private or the message mentions the bot, the code composes
reply_status (a read of replied_messages) and then evaluates
telegram_api("forwardMessage", chat_id=ADMIN_ID, ...): the name ADMIN_ID is
defined nowhere in the module (the configuration defines ADMIN_IDS), so
argument evaluation raises NameError before any API call is made or any state
is touched.  Otherwise the event is ignored. -/
def handle_user (st : St) (msg : Msg) : Outcome × St × List ApiCall :=
  let is_private := msg.chat_type = "private"
  let is_mention := msg.entities.any (fun t => t = "mention" || t = "text_mention")
  if is_private || is_mention then
    (.nameError "ADMIN_ID", st, [])
  else
    (.ack, st, [])

/-- The POST branch of the webhook handler (src/main.py lines 192-336): an
update without a "message" key is acknowledged untouched; otherwise the
sender id routes to the admin or the user branch (a missing sender id is
never in ADMIN_IDS). -/
def webhook (cfg : Config) (oracle : Nat → TgResponse) (st : St) (update : Option Msg) :
    Outcome × St × List ApiCall :=
  match update with
  | none => (.ack, st, [])
  | some msg =>
    match msg.from_id with
    | some uid =>
      if cfg.admin_ids.contains uid then handle_admin cfg oracle st msg uid
      else handle_user st msg
    | none => handle_user st msg

theorem get_file_id_kind (msg : Msg) (fm : String × String) (h : get_file_id msg = some fm) :
    (method_map fm.2).isSome := by
  unfold get_file_id at h
  repeat' split at h
  all_goals
    first
      | exact Option.noConfusion h
      | (injection h with h1; subst h1; rfl)

theorem relay_action_isSome (oc om : Int) (msg : Msg) : (relay_action oc om msg).isSome := by
  unfold relay_action
  cases hg : get_file_id msg with
  | none => rfl
  | some fm =>
    have hk := get_file_id_kind msg fm hg
    show (forward_media_message oc fm.1 fm.2 msg.caption (some om)).isSome = true
    unfold forward_media_message
    cases hm : method_map fm.2 with
    | none => rw [hm] at hk; exact absurd hk (by simp)
    | some method => rfl

theorem handle_admin_forward_map (cfg : Config) (oracle : Nat → TgResponse) (st : St)
    (msg : Msg) (uid : Int) :
    (handle_admin cfg oracle st msg uid).2.1.forward_map = st.forward_map := by
  unfold handle_admin
  split
  · rfl
  · split
    · rfl
    · simp only [mark_replied]
      split
      · rfl
      · rfl

/-!
Concrete inputs used by the closed instances below, drawn from the scenario of
the testable-properties section: user 42 writes "hi" in private chat 100 as
message 1; the operator set is the single admin 9000; the directory maps
forwarded id 5 to (100, 1).
-/

/-- A private-chat text message from the non-admin user 42. -/
def userPrivateMsg : Msg :=
  { chat_id := 100, chat_type := "private", from_id := some 42,
    from_first_name := some "A", from_last_name := none, from_username := none,
    message_id := 1, reply_to_message_id := none, entities := [],
    text := some "hi", caption := none, photo := none, video := none,
    document := none, audio := none, voice := none, sticker := none }

/-- A group-chat text message from the non-admin user 42, with no entities. -/
def userGroupMsg : Msg :=
  { chat_id := -500, chat_type := "group", from_id := some 42,
    from_first_name := some "A", from_last_name := none, from_username := none,
    message_id := 2, reply_to_message_id := none, entities := [],
    text := some "hi all", caption := none, photo := none, video := none,
    document := none, audio := none, voice := none, sticker := none }

/-- Admin 9000 replies "hello" to the forwarded message 5. -/
def adminReplyMsg : Msg :=
  { chat_id := 9000, chat_type := "private", from_id := some 9000,
    from_first_name := some "Op", from_last_name := none, from_username := none,
    message_id := 41, reply_to_message_id := some 5, entities := [],
    text := some "hello", caption := none, photo := none, video := none,
    document := none, audio := none, voice := none, sticker := none }

/-- Admin 9000 replies to message 77, which is not in the directory. -/
def adminReplyUnknownMsg : Msg :=
  { chat_id := 9000, chat_type := "private", from_id := some 9000,
    from_first_name := some "Op", from_last_name := none, from_username := none,
    message_id := 42, reply_to_message_id := some 77, entities := [],
    text := some "hello?", caption := none, photo := none, video := none,
    document := none, audio := none, voice := none, sticker := none }

/-- The single-admin configuration of the scenario. -/
def cfgOne : Config := { admin_ids := [9000] }

/-- A store holding the one link 5 to (100, 1) and an empty reply set. -/
def stOne : St := { forward_map := [(5, 100, 1)], replied_messages := [] }

/-- An oracle whose every response succeeds with message id 777. -/
def okOracle : Nat → TgResponse := fun _ => { ok := true, result_message_id := some 777 }

/-- An oracle whose every response is a failure. -/
def failOracle : Nat → TgResponse := fun _ => { ok := false, result_message_id := none }

/-- C1: the claim says a private-chat message from a non-operator is forwarded
to every configured operator with one MessageLink recorded per operator.  The
code instead evaluates the undefined name ADMIN_ID before the first forward
call, so the handler raises NameError: no forward is issued, no MessageLink is
recorded and the store is unchanged, for every such message. -/
theorem c1_private_user_message_raises_nameError (cfg : Config)
    (oracle : Nat → TgResponse) (st : St) (msg : Msg)
    (hnonadmin : msg.from_id.elim false cfg.admin_ids.contains = false)
    (hpriv : msg.chat_type = "private") :
    webhook cfg oracle st (some msg) = (.nameError "ADMIN_ID", st, []) := by
  cases hf : msg.from_id with
  | none => simp [webhook, hf, handle_user, hpriv]
  | some uid =>
    rw [hf] at hnonadmin
    simp only [Option.elim] at hnonadmin
    simp at hnonadmin
    simp [webhook, hf, hnonadmin, handle_user, hpriv]

theorem c1_witness :
    webhook cfgOne okOracle stOne (some userPrivateMsg) =
      (.nameError "ADMIN_ID", stOne, []) :=
  c1_private_user_message_raises_nameError cfgOne okOracle stOne userPrivateMsg
    (by decide) (by decide)

/-- C2: the claim says every inbound webhook event is acknowledged and no
internal error escapes the handler.  On a well-formed private-chat user
message the handler instead raises NameError for the undefined ADMIN_ID, which
propagates out of the handler unhandled. -/
theorem c2_handler_not_always_acknowledged :
    (webhook cfgOne okOracle stOne (some userPrivateMsg)).1 =
        Outcome.nameError "ADMIN_ID" ∧
      (webhook cfgOne okOracle stOne (some userPrivateMsg)).1 ≠ Outcome.ack := by
  decide

/-- C3 counterexample: the claim says a record_link call with an
already-present forwarded_id fails with DuplicateKey and keeps the existing
MessageLink.  Recording forwarded id 5 as (100, 1) and then again as (200, 2)
instead keeps (200, 2): the directory insertion is a plain dict assignment,
the old link is replaced and nothing fails. -/
theorem c3_duplicate_not_rejected_counterexample :
    record_link (record_link [] 5 (100, 1)) 5 (200, 2) = [(5, 200, 2)] ∧
    resolve (record_link (record_link [] 5 (100, 1)) 5 (200, 2)) 5 = some (200, 2) := by
  decide

/-- C3 amended: a record_link call with a forwarded_id already present
succeeds and replaces the existing MessageLink with the new one (last write
wins); links under every other forwarded_id are untouched, and no failure of
any kind is raised. -/
theorem c3_record_link_last_write_wins (m : List (Int × Int × Int)) (fid : Int)
    (p q : Int × Int) (hpresent : resolve m fid = some p) :
    resolve (record_link m fid q) fid = some q ∧
    (p ≠ q → resolve (record_link m fid q) fid ≠ resolve m fid) ∧
    ∀ k, k ≠ fid → resolve (record_link m fid q) k = resolve m k := by
  refine ⟨resolve_record_link_self m fid q, ?_,
    fun k hk => resolve_record_link_ne m fid q k (Ne.symm hk)⟩
  intro hpq
  rw [resolve_record_link_self m fid q, hpresent]
  exact fun hc => hpq (Option.some.inj hc).symm

theorem c3_witness :
    resolve (record_link [(5, 100, 1)] 5 (200, 2)) 5 = some (200, 2) ∧
    (((100 : Int), (1 : Int)) ≠ ((200 : Int), (2 : Int)) →
      resolve (record_link [(5, 100, 1)] 5 (200, 2)) 5 ≠ resolve [(5, 100, 1)] 5) ∧
    ∀ k, k ≠ (5 : Int) →
      resolve (record_link [(5, 100, 1)] 5 (200, 2)) k = resolve [(5, 100, 1)] k :=
  c3_record_link_last_write_wins [(5, 100, 1)] 5 (100, 1) (200, 2) (by decide)

/-- C4: resolving a forwarded_id after it was recorded with origin pair
(origin_chat, origin_message_id) returns exactly that pair, as long as every
later record targets a different forwarded_id. -/
theorem c4_resolve_returns_recorded_pair (m : List (Int × Int × Int)) (fid : Int)
    (p : Int × Int) (later : List (Int × Int × Int))
    (hlater : ∀ o ∈ later, o.1 ≠ fid) :
    resolve (later.foldl (fun a o => record_link a o.1 o.2) (record_link m fid p)) fid =
      some p := by
  rw [resolve_foldl_ne later _ fid hlater]
  exact resolve_record_link_self m fid p

theorem c4_witness :
    resolve ([((6 : Int), (7 : Int), (8 : Int))].foldl
      (fun a o => record_link a o.1 o.2) (record_link [] 5 (100, 1))) 5 = some (100, 1) :=
  c4_resolve_returns_recorded_pair [] 5 (100, 1) [(6, 7, 8)] (by decide)

/-- C5: saving the directory and the reply set and loading them back yields
the same forwarded_id keys mapped to the same (origin_chat, origin_message_id)
tuples, and the same reply-set membership. -/
theorem c5_save_load_roundtrip (st : St) :
    loadForwardMap (saveForwardMap st.forward_map) = st.forward_map ∧
    ∀ x : Int, x ∈ loadReplied (saveReplied st.replied_messages) ↔
      x ∈ st.replied_messages :=
  ⟨loadForwardMap_saveForwardMap st.forward_map,
   fun x => by simp [loadReplied, saveReplied, List.mem_dedup]⟩

/-- C6: mark_replied is idempotent on the whole store (directory included),
and was_replied holds afterwards. -/
theorem c6_mark_replied_idempotent (st : St) (origin_message_id : Int) :
    mark_replied (mark_replied st origin_message_id) origin_message_id =
      mark_replied st origin_message_id ∧
    was_replied (mark_replied st origin_message_id) origin_message_id = true := by
  constructor
  · by_cases h : origin_message_id ∈ st.replied_messages <;>
      simp [mark_replied, setAdd, h]
  · by_cases h : origin_message_id ∈ st.replied_messages <;>
      simp [mark_replied, setAdd, was_replied, h]

/-- A group-chat message from the non-admin user 43 that mentions another
user, not the bot: its only entity is a mention-type tag (the code never
records whom a mention targets, only the entity type). -/
def userGroupMentionOtherMsg : Msg :=
  { chat_id := -500, chat_type := "group", from_id := some 43,
    from_first_name := some "B", from_last_name := none, from_username := none,
    message_id := 3, reply_to_message_id := none, entities := ["mention"],
    text := some "@alice hi", caption := none, photo := none, video := none,
    document := none, audio := none, voice := none, sticker := none }

/-- C7 counterexample: the claim says a non-operator group message containing
no mention of the bot is ignored without error.  A group message mentioning a
user other than the bot contains no mention of the bot, yet the code tests
only the entity type (mention or text_mention), never whom it mentions, so it
enters the forward branch and raises NameError for the undefined ADMIN_ID
instead of ignoring the event. -/
theorem c7_mention_of_non_bot_not_ignored_counterexample :
    webhook cfgOne okOracle stOne (some userGroupMentionOtherMsg) =
      (.nameError "ADMIN_ID", stOne, []) ∧
    webhook cfgOne okOracle stOne (some userGroupMentionOtherMsg) ≠
      (.ack, stOne, []) := by
  decide

/-- C7 amended: a message from a non-operator in a non-private chat carrying
no mention-type entity at all is ignored: the handler acknowledges, issues no
call and leaves the store unchanged. -/
theorem c7_group_without_mention_ignored (cfg : Config) (oracle : Nat → TgResponse)
    (st : St) (msg : Msg)
    (hnonadmin : msg.from_id.elim false cfg.admin_ids.contains = false)
    (hgroup : msg.chat_type ≠ "private")
    (hnomention : msg.entities.any (fun t => t = "mention" || t = "text_mention") = false) :
    webhook cfg oracle st (some msg) = (.ack, st, []) := by
  cases hf : msg.from_id with
  | none => simp [webhook, hf, handle_user, hgroup, hnomention]
  | some uid =>
    rw [hf] at hnonadmin
    simp only [Option.elim] at hnonadmin
    simp at hnonadmin
    simp [webhook, hf, hnonadmin, handle_user, hgroup, hnomention]

theorem c7_witness :
    webhook cfgOne okOracle stOne (some userGroupMsg) = (.ack, stOne, []) :=
  c7_group_without_mention_ignored cfgOne okOracle stOne userGroupMsg
    (by decide) (by decide) (by decide)

theorem handle_admin_resolved (cfg : Config) (oracle : Nat → TgResponse) (st : St)
    (msg : Msg) (uid rid oc om : Int)
    (hr : msg.reply_to_message_id = some rid)
    (hres : resolve st.forward_map rid = some (oc, om)) :
    handle_admin cfg oracle st msg uid =
      if (oracle 0).ok then
        (.ack, mark_replied st om,
          (relay_action oc om msg).toList ++ cfg.admin_ids.map (fun admin_id =>
            ApiCall.sendMessage admin_id
              ("✅ Reply sent successfully by " ++ msg.from_first_name.getD "Admin")
              (if admin_id = uid then some msg.message_id else none)))
      else
        (.ack, st,
          (relay_action oc om msg).toList ++
            [ApiCall.sendMessage uid "❌ Failed to send reply" (some msg.message_id)]) := by
  obtain ⟨call, hcall⟩ := Option.isSome_iff_exists.mp (relay_action_isSome oc om msg)
  unfold handle_admin
  rw [hr]
  simp only [hres, hcall]

/-- C8: on an operator reply that resolves to a link, the origin message is
marked replied exactly when the relay response succeeds; on failure the store
is unchanged and a failure acknowledgment is sent to the replying operator,
threaded to the operator's own message. -/
theorem c8_reply_marked_only_on_relay_success (cfg : Config)
    (oracle : Nat → TgResponse) (st : St) (msg : Msg) (uid rid oc om : Int)
    (hf : msg.from_id = some uid) (hadm : cfg.admin_ids.contains uid = true)
    (hr : msg.reply_to_message_id = some rid)
    (hres : resolve st.forward_map rid = some (oc, om)) :
    ((oracle 0).ok = false →
      (webhook cfg oracle st (some msg)).2.1 = st ∧
      ApiCall.sendMessage uid "❌ Failed to send reply" (some msg.message_id) ∈
        (webhook cfg oracle st (some msg)).2.2) ∧
    ((oracle 0).ok = true →
      (webhook cfg oracle st (some msg)).2.1 = mark_replied st om) := by
  simp at hadm
  have hweb : webhook cfg oracle st (some msg) = handle_admin cfg oracle st msg uid := by
    simp [webhook, hf, hadm]
  rw [hweb, handle_admin_resolved cfg oracle st msg uid rid oc om hr hres]
  constructor
  · intro hok
    simp [hok]
  · intro hok
    simp [hok]

theorem c8_witness :
    ((failOracle 0).ok = false →
      (webhook cfgOne failOracle stOne (some adminReplyMsg)).2.1 = stOne ∧
      ApiCall.sendMessage 9000 "❌ Failed to send reply" (some 41) ∈
        (webhook cfgOne failOracle stOne (some adminReplyMsg)).2.2) ∧
    ((failOracle 0).ok = true →
      (webhook cfgOne failOracle stOne (some adminReplyMsg)).2.1 = mark_replied stOne 1) :=
  c8_reply_marked_only_on_relay_success cfgOne failOracle stOne adminReplyMsg
    9000 5 100 1 rfl (by decide) rfl (by decide)

/-- C9: an operator reply whose target is not in the directory is ignored: no
outbound call, unchanged store, and the handler still acknowledges. -/
theorem c9_unknown_reply_target_ignored (cfg : Config) (oracle : Nat → TgResponse)
    (st : St) (msg : Msg) (uid rid : Int)
    (hf : msg.from_id = some uid) (hadm : cfg.admin_ids.contains uid = true)
    (hr : msg.reply_to_message_id = some rid)
    (hres : resolve st.forward_map rid = none) :
    webhook cfg oracle st (some msg) = (.ack, st, []) := by
  simp at hadm
  simp [webhook, hf, hadm, handle_admin, hr, hres]

theorem c9_witness :
    webhook cfgOne okOracle stOne (some adminReplyUnknownMsg) = (.ack, stOne, []) :=
  c9_unknown_reply_target_ignored cfgOne okOracle stOne adminReplyUnknownMsg
    9000 77 rfl (by decide) rfl (by decide)

/-- C10: processing any message whose sender is a configured operator never
changes the forwarded-message directory; only the reply set can change. -/
theorem c10_operator_path_preserves_directory (cfg : Config)
    (oracle : Nat → TgResponse) (st : St) (msg : Msg) (uid : Int)
    (hf : msg.from_id = some uid) (hadm : cfg.admin_ids.contains uid = true) :
    (webhook cfg oracle st (some msg)).2.1.forward_map = st.forward_map := by
  simp at hadm
  simp [webhook, hf, hadm, handle_admin_forward_map]

theorem c10_witness :
    (webhook cfgOne okOracle stOne (some adminReplyMsg)).2.1.forward_map =
      stOne.forward_map :=
  c10_operator_path_preserves_directory cfgOne okOracle stOne adminReplyMsg
    9000 rfl (by decide)
